import Mathlib

/-!
Shallow embedding of `PythonApplication1/PythonApplication1.py`, a small
payroll program: pluggable bonus and payment schemes, employees grouped in
departments carrying monthly plans, even plan distribution, and a simplified
JSON persistence of employee records.

Python dicts keyed by month strings are modelled as association lists with
first-match lookup and in-place update; Python numbers are modelled as `ℚ`;
Python division, which raises `ZeroDivisionError` on a zero divisor, is
modelled as an `Option`-valued operation.
-/

namespace Payroll

/-- Lookup in a Python-dict model (`d.get(k)`): first binding of `k`, if any. -/
def dictGet (d : List (String × ℚ)) (k : String) : Option ℚ :=
  match d with
  | [] => none
  | (k', v) :: rest => if k' = k then some v else dictGet rest k

/-- Lookup with default (`d.get(k, dflt)`). -/
def dictGetD (d : List (String × ℚ)) (k : String) (dflt : ℚ) : ℚ :=
  (dictGet d k).getD dflt

/-- Update in a Python-dict model (`d[k] = v`): overwrite the existing binding
of `k`, or append a new one. -/
def dictSet : List (String × ℚ) → String → ℚ → List (String × ℚ)
  | [], k, v => [(k, v)]
  | (k', v') :: rest, k, v =>
      if k' = k then (k, v) :: rest else (k', v') :: dictSet rest k v

/-- Python division: `none` models the `ZeroDivisionError` raised on a zero
divisor. -/
def pydiv (a b : ℚ) : Option ℚ :=
  if b = 0 then none else some (a / b)

/-- The three `IBonusScheme` implementations of the source. -/
inductive BonusScheme
  | fixedBonus
  | percentOfBaseBonus
  | planPerformanceBonus
deriving DecidableEq, Repr

/-- The three `IPaymentScheme` implementations of the source. -/
inductive PaymentScheme
  | fixedSalaryWithBonus
  | percentProductionWithBonus
  | percentPlanWithBonus
deriving DecidableEq, Repr

/-- Dispatch of `calculate_bonus(self, base, plan, actual)` over the three
`IBonusScheme` subclasses:
`FixedBonus` returns `base`; `PercentOfBaseBonus` returns `base * 0.1`;
`PlanPerformanceBonus` returns `0` when `plan == 0`, else
`(actual / plan) * 0.2 * base`. -/
def calculate_bonus : BonusScheme → ℚ → ℚ → ℚ → Option ℚ
  | .fixedBonus, base, _plan, _actual => some base
  | .percentOfBaseBonus, base, _plan, _actual => some (base * 0.1)
  | .planPerformanceBonus, base, plan, actual =>
      if plan = 0 then some 0
      else (pydiv actual plan).map (fun q => q * 0.2 * base)

/-- Dispatch of `calculate(self, base, bonus, plan, actual)` over the three
`IPaymentScheme` subclasses, where `bonus` is the bonus-scheme object the
payment scheme delegates to:
`FixedSalaryWithBonus` returns `base + bonus.calculate_bonus(...)`;
`PercentProductionWithBonus` returns `actual * base + bonus.calculate_bonus(...)`;
`PercentPlanWithBonus` returns `bonus.calculate_bonus(...)` when `plan == 0`,
else `(actual / plan) * base + bonus.calculate_bonus(...)`. -/
def PaymentScheme.calculate :
    PaymentScheme → ℚ → BonusScheme → ℚ → ℚ → Option ℚ
  | .fixedSalaryWithBonus, base, bonus, plan, actual =>
      (calculate_bonus bonus base plan actual).map (fun b => base + b)
  | .percentProductionWithBonus, base, bonus, plan, actual =>
      (calculate_bonus bonus base plan actual).map (fun b => actual * base + b)
  | .percentPlanWithBonus, base, bonus, plan, actual =>
      if plan = 0 then calculate_bonus bonus base plan actual
      else (pydiv actual plan).bind (fun q =>
        (calculate_bonus bonus base plan actual).map (fun b => q * base + b))

/-- An `Employee` of the source. The Python object holds a reference to its
`Department`; here `department` is the department's name (which is all the
persistence layer reads), and the department's plan is passed explicitly to
`calculate_salary`. -/
structure Employee where
  name : String
  position : String
  department : String
  payment_scheme : PaymentScheme
  bonus_scheme : BonusScheme
  base_salary : ℚ
  production : List (String × ℚ)
deriving DecidableEq, Repr

/-- Source `Employee.calculate_salary(self, month)`:
`actual = self.production.get(month, 0)`,
`plan = self.department.plan.get(month, 0)`,
then `self.payment_scheme.calculate(self.base_salary, self.bonus_scheme, plan, actual)`.
`deptPlan` is the plan dict of the department the employee references. -/
def Employee.calculate_salary (e : Employee) (deptPlan : List (String × ℚ))
    (month : String) : Option ℚ :=
  let actual := dictGetD e.production month 0
  let plan := dictGetD deptPlan month 0
  PaymentScheme.calculate e.payment_scheme e.base_salary e.bonus_scheme plan actual

/-- A `Department` of the source: a name, an ordered employee list and a
per-month plan dict. (The optional `manager` field is never read by the
modelled operations and is omitted.) -/
structure Department where
  name : String
  employees : List Employee
  plan : List (String × ℚ)
deriving DecidableEq, Repr

/-- Source `Department.add_employee`: append to `employees`. -/
def Department.add_employee (d : Department) (e : Employee) : Department :=
  { d with employees := d.employees ++ [e] }

/-- Source `Department.distribute_plan(self, month)`: return unchanged when
`employees` is empty, else compute
`per_employee = self.plan.get(month, 0) / len(self.employees)` and set
`emp.production[month] = per_employee` for every employee. The division is
modelled through `pydiv`. -/
def Department.distribute_plan (d : Department) (month : String) :
    Option Department :=
  if d.employees.isEmpty then some d
  else
    (pydiv (dictGetD d.plan month 0) (d.employees.length : ℚ)).map
      (fun per =>
        { d with employees := d.employees.map (fun e =>
            { e with production := dictSet e.production month per }) })

/-- The flat record written by menu choice 6 (save to JSON): fields `name`,
`position`, `department` (the department's name), `base_salary`, `production`. -/
structure EmployeeRecord where
  name : String
  position : String
  department : String
  base_salary : ℚ
  production : List (String × ℚ)
deriving DecidableEq, Repr

/-- Menu choice 6 of `main`: build one flat record per employee. -/
def saveEmployeesJson (emps : List Employee) : List EmployeeRecord :=
  emps.map (fun e =>
    { name := e.name, position := e.position, department := e.department,
      base_salary := e.base_salary, production := e.production })

/-- Menu choice 10 of `main`: reconstruct one employee per record, always with
`FixedSalaryWithBonus` and `FixedBonus`, taking `production` from the record
(defaulting to empty when absent, which the record type makes `[]`). -/
def loadEmployeeJson (r : EmployeeRecord) : Employee :=
  { name := r.name, position := r.position, department := r.department,
    payment_scheme := .fixedSalaryWithBonus, bonus_scheme := .fixedBonus,
    base_salary := r.base_salary, production := r.production }

/-- Menu choice 10 of `main`, over a whole record list. -/
def loadEmployeesJson (recs : List EmployeeRecord) : List Employee :=
  recs.map loadEmployeeJson

/-! Helper lemmas about the dict model. -/

/-- Every bonus scheme returns a value (no unguarded division). -/
theorem calculate_bonus_isSome (b : BonusScheme) (base plan actual : ℚ) :
    (calculate_bonus b base plan actual).isSome := by
  cases b with
  | fixedBonus => rfl
  | percentOfBaseBonus => rfl
  | planPerformanceBonus =>
      simp only [calculate_bonus, pydiv]
      by_cases h : plan = 0 <;> simp [h]

/-- Every payment scheme returns a value (no unguarded division). -/
theorem calculate_isSome (p : PaymentScheme) (b : BonusScheme)
    (base plan actual : ℚ) :
    (PaymentScheme.calculate p base b plan actual).isSome := by
  have hb := calculate_bonus_isSome b base plan actual
  cases p with
  | fixedSalaryWithBonus => simpa [PaymentScheme.calculate] using hb
  | percentProductionWithBonus => simpa [PaymentScheme.calculate] using hb
  | percentPlanWithBonus =>
      by_cases h : plan = 0
      · simpa [PaymentScheme.calculate, h] using hb
      · obtain ⟨v, hv⟩ := Option.isSome_iff_exists.mp hb
        simp [PaymentScheme.calculate, h, pydiv, hv]

/-- Reading back the key just written yields the written value. -/
theorem dictGet_dictSet (p : List (String × ℚ)) (k : String) (v : ℚ) :
    dictGet (dictSet p k v) k = some v := by
  induction p with
  | nil => simp [dictSet, dictGet]
  | cons hd tl ih =>
      obtain ⟨k', v'⟩ := hd
      by_cases h : k' = k <;> simp [dictSet, dictGet, h, ih]

/-- Writing the same value to the same key twice equals writing once. -/
theorem dictSet_idem (p : List (String × ℚ)) (k : String) (v : ℚ) :
    dictSet (dictSet p k v) k v = dictSet p k v := by
  induction p with
  | nil => simp [dictSet]
  | cons hd tl ih =>
      obtain ⟨k', v'⟩ := hd
      by_cases h : k' = k <;> simp [dictSet, h, ih]

/-! Concrete instances used by scenario claims and witnesses. -/

/-- The employee of the spec's fixed-bonus scenario: base 2000, `FixedBonus`
(the session enters fixed amount 300, which `main` discards),
`FixedSalaryWithBonus`, no production recorded. -/
def fixedBonusEmployee : Employee :=
  { name := "A", position := "P", department := "D",
    payment_scheme := .fixedSalaryWithBonus, bonus_scheme := .fixedBonus,
    base_salary := 2000, production := [] }

/-- An employee of the Sales department of the distribution scenario. -/
def salesEmp (n : String) : Employee :=
  { name := n, position := "worker", department := "Sales",
    payment_scheme := .fixedSalaryWithBonus, bonus_scheme := .fixedBonus,
    base_salary := 1000, production := [] }

/-- Department "Sales": plan 1000 for "2024-05", four employees. -/
def salesDept : Department :=
  { name := "Sales",
    employees := [salesEmp "e1", salesEmp "e2", salesEmp "e3", salesEmp "e4"],
    plan := [("2024-05", 1000)] }

/-- A department with no employees but a prior plan. -/
def emptyDept : Department :=
  { name := "Empty", employees := [], plan := [("2024-05", 7)] }

/-- The employee of the percent-production scenario: base 100,
`PercentProductionWithBonus`, `PercentOfBaseBonus`, actual 5 for "2024-05". -/
def productionEmp : Employee :=
  { name := "B", position := "P", department := "D",
    payment_scheme := .percentProductionWithBonus,
    bonus_scheme := .percentOfBaseBonus,
    base_salary := 100, production := [("2024-05", 5)] }

/-- An employee as reconstructed by the JSON loader. -/
def loadedEmp : Employee :=
  loadEmployeeJson
    { name := "L", position := "P", department := "D",
      base_salary := 150, production := [("2024-05", 9)] }

/-! Claim theorems. -/

/-- C1: on the spec's scenario (base 2000, `FixedBonus` with entered fixed
amount 300, `FixedSalaryWithBonus`, actual = 0 and plan = 0) the code pays
4000, not the claimed 2300: `main` discards the entered fixed amount and
`calculate_salary` passes `base_salary` as the bonus argument, so the bonus
equals the base salary. -/
theorem fixedBonus_scenario_code_result :
    fixedBonusEmployee.calculate_salary [] "2024-05" = some 4000 ∧
    ¬ fixedBonusEmployee.calculate_salary [] "2024-05" = some 2300 := by
  constructor <;>
    norm_num [fixedBonusEmployee, Employee.calculate_salary, dictGetD, dictGet,
      PaymentScheme.calculate, calculate_bonus]

/-- C2: on a department with `k > 0` employees, `distribute_plan` succeeds,
leaves the name and the plan unchanged, overwrites every employee's production
for the month with the single value `plan.get(month, 0) / k`, and calling it
again on the result changes nothing. -/
theorem distribute_plan_nonempty (d : Department) (month : String)
    (hk : 0 < d.employees.length) :
    ∃ d', d.distribute_plan month = some d' ∧
      d'.name = d.name ∧ d'.plan = d.plan ∧
      d'.employees = d.employees.map (fun e =>
        { e with production := (dictSet e.production month
            (dictGetD d.plan month 0 / (d.employees.length : ℚ))) }) ∧
      (∀ e' ∈ d'.employees,
        dictGet e'.production month =
          some (dictGetD d.plan month 0 / (d.employees.length : ℚ))) ∧
      d'.distribute_plan month = some d' := by
  have hnil : d.employees ≠ [] := List.ne_nil_of_length_pos hk
  have hemp : d.employees.isEmpty = false := by
    cases h : d.employees with
    | nil => exact absurd h hnil
    | cons a t => rfl
  have hlen : (d.employees.length : ℚ) ≠ 0 := Nat.cast_ne_zero.mpr hk.ne'
  refine ⟨{ d with employees := d.employees.map (fun e =>
      { e with production := (dictSet e.production month
          (dictGetD d.plan month 0 / (d.employees.length : ℚ))) }) },
    ?_, rfl, rfl, rfl, ?_, ?_⟩
  · simp [Department.distribute_plan, hemp, pydiv, hlen]
  · intro e' he'
    simp only [List.mem_map] at he'
    obtain ⟨e, -, rfl⟩ := he'
    exact dictGet_dictSet e.production month _
  · have hemp2 : (d.employees.map (fun e =>
        { e with production := (dictSet e.production month
            (dictGetD d.plan month 0 / (d.employees.length : ℚ))) })).isEmpty
        = false := by
      cases h : d.employees with
      | nil => exact absurd h hnil
      | cons a t => rfl
    simp [Department.distribute_plan, hemp2, pydiv, hlen, List.length_map,
      dictSet_idem]

/-- C2 witness: department "Sales" with plan 1000 for "2024-05" and four
employees; the per-employee share is 250. -/
theorem distribute_plan_nonempty_witness :
    0 < salesDept.employees.length ∧
    (∃ d', salesDept.distribute_plan "2024-05" = some d' ∧
      d'.name = salesDept.name ∧ d'.plan = salesDept.plan ∧
      d'.employees = salesDept.employees.map (fun e =>
        { e with production := (dictSet e.production "2024-05"
            (dictGetD salesDept.plan "2024-05" 0 /
              (salesDept.employees.length : ℚ))) }) ∧
      (∀ e' ∈ d'.employees,
        dictGet e'.production "2024-05" =
          some (dictGetD salesDept.plan "2024-05" 0 /
            (salesDept.employees.length : ℚ))) ∧
      d'.distribute_plan "2024-05" = some d') ∧
    dictGetD salesDept.plan "2024-05" 0 / (salesDept.employees.length : ℚ)
      = 250 :=
  ⟨by simp [salesDept],
   distribute_plan_nonempty salesDept "2024-05" (by simp [salesDept]),
   by norm_num [salesDept, dictGetD, dictGet]⟩

/-- C3: at `plan = 0` every payment scheme and every bonus scheme returns a
value (no division is reached); `PercentPlanWithBonus` degenerates to the bonus
alone and `PlanPerformanceBonus` to `0`, so no plan-based component
contributes. -/
theorem plan_zero_total (p : PaymentScheme) (b : BonusScheme)
    (base actual : ℚ) :
    (PaymentScheme.calculate p base b 0 actual).isSome ∧
    (calculate_bonus b base 0 actual).isSome ∧
    PaymentScheme.calculate .percentPlanWithBonus base b 0 actual =
      calculate_bonus b base 0 actual ∧
    calculate_bonus .planPerformanceBonus base 0 actual = some 0 := by
  refine ⟨calculate_isSome p b base 0 actual,
    calculate_bonus_isSome b base 0 actual, ?_, ?_⟩
  · simp [PaymentScheme.calculate]
  · simp [calculate_bonus]

/-- C4: `PlanPerformanceBonus.calculate_bonus` equals
`0.20 × base × (actual / plan)` when `plan ≠ 0`, and `0` when `plan = 0`. -/
theorem planPerformanceBonus_spec (base plan actual : ℚ) :
    calculate_bonus .planPerformanceBonus base plan actual =
      if plan = 0 then some 0 else some (0.2 * base * (actual / plan)) := by
  by_cases h : plan = 0
  · simp [calculate_bonus, h]
  · simp [calculate_bonus, pydiv, h]
    ring

/-- C5: `PercentPlanWithBonus.calculate` equals
`(actual / plan) × base + bonus` when `plan ≠ 0`, and the resolved bonus alone
when `plan = 0`, for every bonus scheme. -/
theorem percentPlanWithBonus_spec (base plan actual : ℚ) (b : BonusScheme) :
    PaymentScheme.calculate .percentPlanWithBonus base b plan actual =
      (calculate_bonus b base plan actual).map
        (fun bv => if plan = 0 then bv else actual / plan * base + bv) := by
  by_cases h : plan = 0
  · simp [PaymentScheme.calculate, h]
  · obtain ⟨bv, hbv⟩ :=
      Option.isSome_iff_exists.mp (calculate_bonus_isSome b base plan actual)
    simp [PaymentScheme.calculate, h, pydiv, hbv]

/-- C6: `calculate_salary` reads `actual` and `plan` with `.get(month, 0)`
(defaulting to 0 on an absent key), delegates to the payment scheme applied to
`(base_salary, bonus_scheme, plan, actual)`, and always returns a value; as a
pure function of its inputs it mutates nothing. -/
theorem calculate_salary_spec (e : Employee) (deptPlan : List (String × ℚ))
    (month : String) :
    e.calculate_salary deptPlan month =
      PaymentScheme.calculate e.payment_scheme e.base_salary e.bonus_scheme
        ((dictGet deptPlan month).getD 0) ((dictGet e.production month).getD 0) ∧
    (e.calculate_salary deptPlan month).isSome := by
  exact ⟨rfl, calculate_isSome e.payment_scheme e.bonus_scheme e.base_salary
    (dictGetD deptPlan month 0) (dictGetD e.production month 0)⟩

/-- C7: `distribute_plan` on a department with an empty employee list returns
the department unchanged, plan and productions included. -/
theorem distribute_plan_empty (d : Department) (month : String)
    (h : d.employees = []) :
    d.distribute_plan month = some d := by
  simp [Department.distribute_plan, h]

/-- C7 witness: the empty department with a prior plan is returned unchanged. -/
theorem distribute_plan_empty_witness :
    emptyDept.employees = [] ∧
    emptyDept.distribute_plan "2024-05" = some emptyDept :=
  ⟨rfl, distribute_plan_empty emptyDept "2024-05" rfl⟩

/-- C8: `PercentOfBaseBonus.calculate_bonus` equals `0.10 × base` for every
nonnegative base, independently of plan and actual; on the scenario employee
(base 100, `PercentProductionWithBonus`, `PercentOfBaseBonus`, actual 5) the
salary is 510. -/
theorem percentOfBaseBonus_tenth (base plan actual : ℚ) (_h : 0 ≤ base) :
    calculate_bonus .percentOfBaseBonus base plan actual = some (0.1 * base) ∧
    productionEmp.calculate_salary [] "2024-05" = some 510 := by
  constructor
  · simp [calculate_bonus, mul_comm]
  · norm_num [productionEmp, Employee.calculate_salary, dictGetD, dictGet,
      PaymentScheme.calculate, calculate_bonus]

/-- C8 witness: the theorem instantiated at base 100, plan 0, actual 0. -/
theorem percentOfBaseBonus_tenth_witness :
    (0 : ℚ) ≤ 100 ∧
    (calculate_bonus .percentOfBaseBonus 100 0 0 = some (0.1 * 100) ∧
     productionEmp.calculate_salary [] "2024-05" = some 510) :=
  ⟨by norm_num, percentOfBaseBonus_tenth 100 0 0 (by norm_num)⟩

/-- C9: saving employees to JSON records and loading them back preserves name,
position, department name, base salary and production, while the payment and
bonus schemes of the loaded employees default to `FixedSalaryWithBonus` and
`FixedBonus`. -/
theorem json_roundtrip (emps : List Employee) :
    loadEmployeesJson (saveEmployeesJson emps) =
      emps.map (fun e =>
        { e with payment_scheme := .fixedSalaryWithBonus,
                 bonus_scheme := .fixedBonus }) := by
  simp [loadEmployeesJson, saveEmployeesJson, loadEmployeeJson, List.map_map]

/-- C10: every employee whose schemes are `FixedSalaryWithBonus` and
`FixedBonus` — the configuration every loaded employee receives — is paid
exactly `2 × base_salary` for every month and every plan, because
`FixedBonus.calculate_bonus` returns its base argument and `calculate_salary`
passes `base_salary` as that argument. -/
theorem fixed_default_double_salary (e : Employee)
    (deptPlan : List (String × ℚ)) (month : String)
    (hp : e.payment_scheme = .fixedSalaryWithBonus)
    (hb : e.bonus_scheme = .fixedBonus) :
    e.calculate_salary deptPlan month = some (2 * e.base_salary) := by
  simp [Employee.calculate_salary, hp, hb, PaymentScheme.calculate,
    calculate_bonus, two_mul]

/-- C10 witness: a JSON-loaded employee with base 150 is paid 300 despite a
recorded production of 9 and a department plan of 40 for the month. -/
theorem fixed_default_double_salary_witness :
    loadedEmp.payment_scheme = .fixedSalaryWithBonus ∧
    loadedEmp.bonus_scheme = .fixedBonus ∧
    loadedEmp.calculate_salary [("2024-05", 40)] "2024-05" = some 300 := by
  refine ⟨rfl, rfl, ?_⟩
  have h := fixed_default_double_salary loadedEmp [("2024-05", 40)] "2024-05"
    rfl rfl
  rw [h]
  norm_num [loadedEmp, loadEmployeeJson]

end Payroll
